import Mathlib

/-!
Shallow embedding of the vote-recording core of `src/logic.py`
(class `Logic` of the voting application).

The embedded pieces are:
  * the fixed candidate list `Logic.candidates`,
  * `Logic.get_voting_id` (concatenation of the five digit fields),
  * `Logic.check_duplicate_vote` (full-file scan comparing the
    `Voting ID` column, `csv.DictReader` semantics),
  * `Logic.get_candidate_stats` (per-candidate tally, `csv.DictReader`
    semantics, unknown rows skipped),
  * `Logic.save_vote` (lazy creation of the store with its header line,
    then append of one record line),
  * `Logic.process_vote` (the ordered validation checks followed by the
    duplicate check, the save and the confirmation message).

The file system is modelled explicitly: the CSV store is either absent or
a list of lines (each line a list of already-split fields, which is what
`csv.writer` / `csv.reader` round-trip), together with two flags saying
whether opening the file for reading or for writing raises an exception.
A raised exception is caught by the source's `except` blocks, which show
a `QMessageBox` warning; we record that as a `warned` boolean returned
alongside each operation's result.
-/

/-- `Logic.candidates` from the source: the two fixed candidate names. -/
def candidates : List String := ["Jane", "John"]

/-- Header row written by `Logic.save_vote` when it creates the store. -/
def header : List String := ["First Name", "Last Name", "Voting ID", "Voted"]

/-- Error message of check 1 in `Logic.process_vote`. -/
def msgFirst : String := "Please provide the first name"

/-- Error message of check 2 in `Logic.process_vote`. -/
def msgLast : String := "Please provide the last name"

/-- Error message of check 3 in `Logic.process_vote`. -/
def msgVid : String := "Please provide the voting ID"

/-- Error message of check 4 in `Logic.process_vote`. -/
def msgFmt : String := "Voting ID must be 5 digits"

/-- Error message of check 5 in `Logic.process_vote`. -/
def msgSel : String := "Please select a candidate to vote for"

/-- Error message of check 6 in `Logic.process_vote`. -/
def msgDup : String := "This Voting ID has already been used"

/-- Index of the last occurrence of `k` in `l`, if any.  A Python `dict`
built by zipping field names with values keeps, for a duplicated key, the
value of its last occurrence, so `csv.DictReader` row lookup resolves a
key to the last index at which it occurs in the field-name row. -/
def lastIdxOf (l : List String) (k : String) : Option Nat :=
  match l with
  | [] => none
  | x :: xs =>
    match lastIdxOf xs k with
    | some i => some (i + 1)
    | none => if x = k then some 0 else none

/-- `row[key]` for a `csv.DictReader` row: `fieldnames` is the first line
of the file, `row` the current data line.  `Except.error ()` models the
`KeyError` raised when `key` is not among the field names; otherwise the
value is `row[i]` for the resolved index `i`, or Python `None`
(modelled `Option.none`) when the row is shorter (`restval`). -/
def dictGet (fieldnames row : List String) (key : String) : Except Unit (Option String) :=
  match lastIdxOf fieldnames key with
  | none => Except.error ()
  | some i => Except.ok (row.get? i)

/-- The raw form state read by `Logic.process_vote`: the two name fields,
the five voting-id digit fields, and the two candidate radio buttons. -/
structure VoteForm where
  input_first_name : String
  input_last_name : String
  d1 : String
  d2 : String
  d3 : String
  d4 : String
  d5 : String
  firstChecked : Bool
  secondChecked : Bool
deriving DecidableEq

/-- `Logic.get_voting_id`: concatenation of the five digit inputs. -/
def get_voting_id (f : VoteForm) : String :=
  f.d1 ++ f.d2 ++ f.d3 ++ f.d4 ++ f.d5

/-- State of the CSV store (`votes.csv`) together with fault flags: `file`
is `none` when `os.path.exists` is false, otherwise the list of lines
(the first line being the field-name row); `readFails` (resp.
`writeFails`) says that opening the file for reading (resp. for
writing/appending) raises an exception. -/
structure FileSys where
  file : Option (List (List String))
  readFails : Bool
  writeFails : Bool
deriving DecidableEq

/-- Loop body of `Logic.check_duplicate_vote`: scan the data rows,
returning `(found, warned)`.  A `KeyError` on `row["Voting ID"]` is
caught by the source's `except`, which warns and returns `False`. -/
def scanDup (fieldnames : List String) (rows : List (List String)) (vid : String) :
    Bool × Bool :=
  match rows with
  | [] => (false, false)
  | r :: rs =>
    match dictGet fieldnames r "Voting ID" with
    | Except.error _ => (false, true)
    | Except.ok v => if v = some vid then (true, false) else scanDup fieldnames rs vid

/-- `Logic.check_duplicate_vote`: `False` when the store is absent;
a read failure is caught, warned about, and yields `False`; otherwise a
`csv.DictReader` scan comparing each row's `Voting ID` entry (blank rows
are skipped by `DictReader`). -/
def check_duplicate_vote (fs : FileSys) (vid : String) : Bool × Bool :=
  match fs.file with
  | none => (false, false)
  | some lines =>
    if fs.readFails then (false, true)
    else
      match lines with
      | [] => (false, false)
      | fieldnames :: rest => scanDup fieldnames (rest.filter (fun r => r ≠ [])) vid

/-- The `stats` dictionary of `Logic.get_candidate_stats`, in insertion
order: an association list from candidate name to count. -/
def statsInit : List (String × Nat) := candidates.map (fun c => (c, 0))

/-- Python `key in stats`. -/
def hasKey : List (String × Nat) → String → Bool
  | [], _ => false
  | p :: ps, k => p.1 = k || hasKey ps k

/-- Python `stats[key] += 1` (keys are distinct, so incrementing every
entry with key `k` coincides with the dict update; order preserved). -/
def bump : List (String × Nat) → String → List (String × Nat)
  | [], _ => []
  | p :: ps, k => (if p.1 = k then (p.1, p.2 + 1) else p) :: bump ps k

/-- Python `stats[key]` read, defaulting to 0 (used only in statements). -/
def lookup0 : List (String × Nat) → String → Nat
  | [], _ => 0
  | p :: ps, k => if p.1 = k then p.2 else lookup0 ps k

/-- Loop body of `Logic.get_candidate_stats`: scan the data rows,
incrementing `stats[row["Voted"]]` when that value is a key of `stats`;
a `KeyError` is caught by the source's `except`, which warns, and the
function returns the counts accumulated so far. -/
def tallyRows (fieldnames : List String) (rows : List (List String))
    (stats : List (String × Nat)) : List (String × Nat) × Bool :=
  match rows with
  | [] => (stats, false)
  | r :: rs =>
    match dictGet fieldnames r "Voted" with
    | Except.error _ => (stats, true)
    | Except.ok v =>
      match v with
      | none => tallyRows fieldnames rs stats
      | some c =>
        if hasKey stats c then tallyRows fieldnames rs (bump stats c)
        else tallyRows fieldnames rs stats

/-- `Logic.get_candidate_stats`: the zero-initialized mapping when the
store is absent; a read failure is caught and warned about, leaving the
zero mapping; otherwise a `csv.DictReader` scan counting rows whose
`Voted` entry names a known candidate. -/
def get_candidate_stats (fs : FileSys) : List (String × Nat) × Bool :=
  match fs.file with
  | none => (statsInit, false)
  | some lines =>
    if fs.readFails then (statsInit, true)
    else
      match lines with
      | [] => (statsInit, false)
      | fieldnames :: rest => tallyRows fieldnames (rest.filter (fun r => r ≠ [])) statsInit

/-- `Logic.save_vote`, with the write path's failure collapsed to its
first write `open` raising: when `writeFails` is set, the `'w'` creation
open (store absent) or the `'a'` append open (store present) raises, so
nothing is written and the store is unchanged; the exception is caught
and warned about.  On the fault-free path the absent store is first
created with the single header line, then the four-field record is
appended.  The finer interruption points of the source's
create-then-append sequence — a failure striking after a successful
creation, which leaves a freshly created empty or header-only file
behind — are modelled by `save_vote_steps`; `save_vote_eq_steps` shows
this function is its restriction to first-open faults. -/
def save_vote (fs : FileSys) (first_name last_name vid cand : String) : FileSys × Bool :=
  if fs.writeFails then (fs, true)
  else
    match fs.file with
    | none =>
      ({ fs with file := some [header, [first_name, last_name, vid, cand]] }, false)
    | some lines =>
      ({ fs with file := some (lines ++ [[first_name, last_name, vid, cand]]) }, false)

/-- Interruption points of `Logic.save_vote`'s write path.  The source's
try block runs up to four write steps when the store is absent — the
`'w'` creation open, the header `writerow`, the `'a'` append open, the
record `writerow` — and the last two when it is present; its single
`except` catches an exception raised at any of them.  `openCreate` is
the creation open raising (nothing created); `writeHeader` is the header
write raising after the creation open succeeded (a freshly created empty
file is left behind; partial in-line data is below this embedding's
line-level granularity); `openAppend` and `writeRecord` strike after any
creation already succeeded, so the record line is not persisted. -/
inductive SaveFault where
  | ok
  | openCreate
  | writeHeader
  | openAppend
  | writeRecord
deriving DecidableEq

/-- `Logic.save_vote`'s effect on the store lines with its fault point
explicit (see `SaveFault`): the second component flags the warning shown
by the `except` block.  When the store is present the creation branch is
skipped, so every fault point leaves the existing lines untouched; when
it is absent, a fault can leave the store absent, freshly created empty,
or freshly created header-only, and never anything else.  On the
fault-free path this coincides with `save_vote` (`save_vote_eq_steps`). -/
def save_vote_steps (file : Option (List (List String))) (fault : SaveFault)
    (first_name last_name vid cand : String) : Option (List (List String)) × Bool :=
  match file with
  | none =>
    match fault with
    | SaveFault.ok => (some [header, [first_name, last_name, vid, cand]], false)
    | SaveFault.openCreate => (none, true)
    | SaveFault.writeHeader => (some [], true)
    | SaveFault.openAppend => (some [header], true)
    | SaveFault.writeRecord => (some [header], true)
  | some lines =>
    match fault with
    | SaveFault.ok => (some (lines ++ [[first_name, last_name, vid, cand]]), false)
    | _ => (some lines, true)

/-- The fault point represented by the coarse `FileSys.writeFails` flag:
the first write `open` on the path raising — the creation open when the
store is absent, the append open otherwise. -/
def faultOfFlag (file : Option (List (List String))) (wf : Bool) : SaveFault :=
  if wf then
    match file with
    | none => SaveFault.openCreate
    | some _ => SaveFault.openAppend
  else SaveFault.ok

/-- Outcome of `Logic.process_vote`: the message shown, with its color
(red error via `show_message(..., error_message_color)` versus green
success). -/
inductive Outcome where
  | error (msg : String)
  | success (msg : String)
deriving DecidableEq

/-- Result of one `Logic.process_vote` call: the message displayed, the
resulting store state, and whether any `QMessageBox` warning popped up. -/
structure PVResult where
  outcome : Outcome
  fs : FileSys
  warned : Bool
deriving DecidableEq

/-- The candidate resolved on the success path of `Logic.process_vote`:
`candidates[0]` if the first radio button is checked else
`candidates[1]`. -/
def chosenCandidate (f : VoteForm) : String :=
  if f.firstChecked then candidates[0]! else candidates[1]!

/-- `Logic.process_vote`: the six ordered, short-circuiting checks, then
candidate resolution, save, and confirmation message. -/
def process_vote (f : VoteForm) (fs : FileSys) : PVResult :=
  if f.input_first_name = "" then ⟨Outcome.error msgFirst, fs, false⟩
  else if f.input_last_name = "" then ⟨Outcome.error msgLast, fs, false⟩
  else if get_voting_id f = "" then ⟨Outcome.error msgVid, fs, false⟩
  else if (get_voting_id f).length ≠ 5 then ⟨Outcome.error msgFmt, fs, false⟩
  else if ¬ (f.firstChecked || f.secondChecked) then ⟨Outcome.error msgSel, fs, false⟩
  else
    let dup := check_duplicate_vote fs (get_voting_id f)
    if dup.1 then ⟨Outcome.error msgDup, fs, dup.2⟩
    else
      let cand := chosenCandidate f
      let sv := save_vote fs f.input_first_name f.input_last_name (get_voting_id f) cand
      ⟨Outcome.success ("Thank you " ++ f.input_first_name ++ "! You voted for " ++ cand ++ "!"),
        sv.1, dup.2 || sv.2⟩

/-- The error taxonomy of the specification (section 7). -/
inductive ValidationError where
  | MissingField (fieldName : String)
  | InvalidFormat (reason : String)
  | MissingSelection
  | DuplicateVote
deriving DecidableEq

/-- Spec-side definition, following the words of section 4.1 of the
specification: the six ordered, short-circuiting validation checks,
first failure wins; `dup` is the result of the duplicate check against
the store.  Used only to compare against `process_vote`. -/
def validateSpec (f : VoteForm) (dup : Bool) : Option ValidationError :=
  if f.input_first_name = "" then some (ValidationError.MissingField "first name")
  else if f.input_last_name = "" then some (ValidationError.MissingField "last name")
  else if get_voting_id f = "" then some (ValidationError.MissingField "voting ID")
  else if (get_voting_id f).length ≠ 5 then
    some (ValidationError.InvalidFormat "voting ID must be 5 digits")
  else if f.firstChecked = false ∧ f.secondChecked = false then
    some ValidationError.MissingSelection
  else if dup then some ValidationError.DuplicateVote
  else none

/-- The user-facing message the source displays for each taxonomy
error. -/
def msgOfErr : ValidationError → String
  | ValidationError.MissingField fld => "Please provide the " ++ fld
  | ValidationError.InvalidFormat _ => msgFmt
  | ValidationError.MissingSelection => msgSel
  | ValidationError.DuplicateVote => msgDup

/-- The error message of a `process_vote` result, `none` on success. -/
def processErrMsg (r : PVResult) : Option String :=
  match r.outcome with
  | Outcome.error m => some m
  | Outcome.success _ => none

/-- A form state that passes validation checks 1–5 of
`Logic.process_vote` (both fields present, a 5-character voting id, at
least one candidate selected). -/
def formOK (f : VoteForm) : Prop :=
  f.input_first_name ≠ "" ∧ f.input_last_name ≠ "" ∧ get_voting_id f ≠ "" ∧
    (get_voting_id f).length = 5 ∧ (f.firstChecked || f.secondChecked) = true

/-- The empty environment: no store file, no forced IO faults. -/
def fsEmpty : FileSys := ⟨none, false, false⟩

/-- The round-trip form of the specification: Jane Doe, id 12345,
first candidate selected. -/
def formJane : VoteForm := ⟨"Jane", "Doe", "1", "2", "3", "4", "5", true, false⟩

/-- A second voter re-using voting id 12345. -/
def formSecond : VoteForm := ⟨"Bob", "Lee", "1", "2", "3", "4", "5", false, true⟩

/-- Store state after the round-trip's first submission. -/
def fs1 : FileSys := (process_vote formJane fsEmpty).fs

/-- A form with both candidate radio buttons checked, used to examine
the selection check. -/
def formBoth : VoteForm := ⟨"Amy", "Orr", "5", "4", "3", "2", "1", true, true⟩

/-- A store whose file holds one persisted vote under id 12345 but whose
read path raises. -/
def fsReadErr : FileSys := ⟨some [header, ["Jane", "Doe", "12345", "Jane"]], true, false⟩

/-- A form re-using id 12345, second candidate selected. -/
def formMia : VoteForm := ⟨"Mia", "Poe", "1", "2", "3", "4", "5", false, true⟩

/-- A store with only the header line whose write path raises. -/
def fsWriteErr : FileSys := ⟨some [header], false, true⟩

/-- A valid form for id 99999, first candidate selected. -/
def formAl : VoteForm := ⟨"Al", "Po", "9", "9", "9", "9", "9", true, false⟩

theorem lastIdxOf_header_vid : lastIdxOf header "Voting ID" = some 2 := by decide

theorem lastIdxOf_header_voted : lastIdxOf header "Voted" = some 3 := by decide

theorem dictGet_header_vid (r : List String) :
    dictGet header r "Voting ID" = Except.ok (r.get? 2) := by
  simp [dictGet, lastIdxOf_header_vid]

theorem dictGet_header_voted (r : List String) :
    dictGet header r "Voted" = Except.ok (r.get? 3) := by
  simp [dictGet, lastIdxOf_header_voted]

theorem scanDup_header_eq (rows : List (List String)) (vid : String) :
    scanDup header rows vid = (rows.any (fun r => decide (r.get? 2 = some vid)), false) := by
  induction rows with
  | nil => rfl
  | cons r rs ih =>
    by_cases h : r.get? 2 = some vid <;>
      simp only [List.get?_eq_getElem?] at h <;>
      simp [scanDup, dictGet_header_vid, h, ih]

theorem check_duplicate_header_eq (rows : List (List String)) (vid : String) (wf : Bool) :
    check_duplicate_vote ⟨some (header :: rows), false, wf⟩ vid =
      ((rows.filter (fun r => r ≠ [])).any (fun r => decide (r.get? 2 = some vid)), false) := by
  simp [check_duplicate_vote, scanDup_header_eq]

theorem hasKey_bump (s : List (String × Nat)) (k c : String) :
    hasKey (bump s k) c = hasKey s c := by
  induction s with
  | nil => rfl
  | cons p ps ih => by_cases h : p.1 = k <;> simp [bump, hasKey, h, ih]

theorem lookup0_bump_eq (s : List (String × Nat)) (k : String) :
    hasKey s k = true → lookup0 (bump s k) k = lookup0 s k + 1 := by
  induction s with
  | nil => intro h; simp [hasKey] at h
  | cons p ps ih =>
    intro h
    by_cases hp : p.1 = k
    · simp [bump, lookup0, hp]
    · simp [hasKey, hp] at h
      simp [bump, lookup0, hp, ih h]

theorem lookup0_bump_ne (s : List (String × Nat)) (k c : String) (h : c ≠ k) :
    lookup0 (bump s k) c = lookup0 s c := by
  induction s with
  | nil => rfl
  | cons p ps ih =>
    by_cases hp : p.1 = k
    · have hkc : k ≠ c := fun hk => h hk.symm
      simp [bump, lookup0, hp, hkc, ih]
    · simp [bump, lookup0, hp, ih]

theorem keys_bump (s : List (String × Nat)) (k : String) :
    (bump s k).map Prod.fst = s.map Prod.fst := by
  induction s with
  | nil => rfl
  | cons p ps ih => by_cases h : p.1 = k <;> simp [bump, h, ih]

theorem tallyRows_keys (fieldnames : List String) (rows : List (List String))
    (stats : List (String × Nat)) :
    ((tallyRows fieldnames rows stats).1).map Prod.fst = stats.map Prod.fst := by
  induction rows generalizing stats with
  | nil => rfl
  | cons r rs ih =>
    show ((match dictGet fieldnames r "Voted" with
      | Except.error _ => (stats, true)
      | Except.ok v =>
        match v with
        | none => tallyRows fieldnames rs stats
        | some c =>
          if hasKey stats c then tallyRows fieldnames rs (bump stats c)
          else tallyRows fieldnames rs stats).1).map Prod.fst = stats.map Prod.fst
    rcases dictGet fieldnames r "Voted" with e | v
    · rfl
    · rcases v with _ | c
      · exact ih stats
      · by_cases h : hasKey stats c = true
        · simp only [h, if_true]
          rw [ih (bump stats c), keys_bump]
        · simp only [Bool.not_eq_true] at h
          simp only [h, Bool.false_eq_true, if_false]
          exact ih stats

theorem tallyRows_header_snd (rows : List (List String)) (stats : List (String × Nat)) :
    (tallyRows header rows stats).2 = false := by
  induction rows generalizing stats with
  | nil => rfl
  | cons r rs ih =>
    show (match dictGet header r "Voted" with
      | Except.error _ => (stats, true)
      | Except.ok v =>
        match v with
        | none => tallyRows header rs stats
        | some c =>
          if hasKey stats c then tallyRows header rs (bump stats c)
          else tallyRows header rs stats).2 = false
    rw [dictGet_header_voted]
    rcases r.get? 3 with _ | c
    · exact ih stats
    · by_cases h : hasKey stats c = true
      · simp only [h, if_true]; exact ih (bump stats c)
      · simp only [Bool.not_eq_true] at h
        simp only [h, Bool.false_eq_true, if_false]
        exact ih stats

theorem tallyRows_header_count (rows : List (List String)) (stats : List (String × Nat))
    (c : String) (hc : hasKey stats c = true) :
    lookup0 (tallyRows header rows stats).1 c =
      lookup0 stats c + rows.countP (fun r => decide (r.get? 3 = some c)) := by
  induction rows generalizing stats with
  | nil => simp [tallyRows]
  | cons r rs ih =>
    show lookup0 (match dictGet header r "Voted" with
      | Except.error _ => (stats, true)
      | Except.ok v =>
        match v with
        | none => tallyRows header rs stats
        | some c =>
          if hasKey stats c then tallyRows header rs (bump stats c)
          else tallyRows header rs stats).1 c = _
    rw [dictGet_header_voted]
    rcases hv : r.get? 3 with _ | c'
    · have hpred : (fun r => decide (r.get? 3 = some c)) r = false := by
        simp only [List.get?_eq_getElem?] at hv
        simp [hv]
      simp only [List.countP_cons, hpred, Bool.false_eq_true, if_false, Nat.add_zero]
      exact ih stats hc
    · by_cases he : c' = c
      · subst he
        have hpred : (fun r => decide (r.get? 3 = some c')) r = true := by
          simp only [List.get?_eq_getElem?] at hv
          simp [hv]
        simp only [List.countP_cons, hpred, if_true]
        simp only [hc, if_true]
        rw [ih (bump stats c') (by rw [hasKey_bump]; exact hc), lookup0_bump_eq stats c' hc]
        omega
      · have hpred : (fun r => decide (r.get? 3 = some c)) r = false := by
          simp only [List.get?_eq_getElem?] at hv
          simp [hv, he]
        simp only [List.countP_cons, hpred, Bool.false_eq_true, if_false, Nat.add_zero]
        by_cases hk : hasKey stats c' = true
        · simp only [hk, if_true]
          rw [ih (bump stats c') (by rw [hasKey_bump]; exact hc),
            lookup0_bump_ne stats c' c (fun hcc => he hcc.symm)]
        · simp only [Bool.not_eq_true] at hk
          simp only [hk, Bool.false_eq_true, if_false]
          exact ih stats hc

theorem hasKey_statsInit (c : String) (hc : c ∈ candidates) : hasKey statsInit c = true := by
  simp only [candidates, List.mem_cons, List.mem_singleton, List.not_mem_nil, or_false] at hc
  rcases hc with h | h <;> subst h <;> decide

theorem lookup0_statsInit (c : String) : lookup0 statsInit c = 0 := by
  show (if "Jane" = c then 0 else if "John" = c then 0 else 0) = 0
  split_ifs <;> rfl

theorem statsInit_keys : statsInit.map Prod.fst = candidates := by decide

theorem process_vote_ok (f : VoteForm) (fs : FileSys) (h : formOK f)
    (hd : (check_duplicate_vote fs (get_voting_id f)).1 = false) :
    process_vote f fs =
      ⟨Outcome.success ("Thank you " ++ f.input_first_name ++ "! You voted for " ++
          chosenCandidate f ++ "!"),
        (save_vote fs f.input_first_name f.input_last_name (get_voting_id f)
          (chosenCandidate f)).1,
        (check_duplicate_vote fs (get_voting_id f)).2 ||
          (save_vote fs f.input_first_name f.input_last_name (get_voting_id f)
            (chosenCandidate f)).2⟩ := by
  obtain ⟨h1, h2, h3, h4, h5⟩ := h
  simp [process_vote, h1, h2, h3, h4, h5, hd]

theorem process_vote_dup (f : VoteForm) (fs : FileSys) (h : formOK f)
    (hd : (check_duplicate_vote fs (get_voting_id f)).1 = true) :
    process_vote f fs =
      ⟨Outcome.error msgDup, fs, (check_duplicate_vote fs (get_voting_id f)).2⟩ := by
  obtain ⟨h1, h2, h3, h4, h5⟩ := h
  simp [process_vote, h1, h2, h3, h4, h5, hd]

theorem save_vote_eq_steps (fs : FileSys) (fn ln vid cd : String) :
    save_vote fs fn ln vid cd =
      ({ fs with file := (save_vote_steps fs.file (faultOfFlag fs.file fs.writeFails)
          fn ln vid cd).1 },
        (save_vote_steps fs.file (faultOfFlag fs.file fs.writeFails) fn ln vid cd).2) := by
  rcases fs with ⟨file, rf, wfb⟩
  rcases file with _ | lines <;> rcases wfb with _ | _ <;> rfl

/-- C5: starting from an empty store, submitting the valid vote
(first "Jane", last "Doe", id "12345", first candidate) succeeds and a
subsequent tally returns Jane 1, John 0; then a second submission with
the same id "12345" fails as a duplicate and the tally is unchanged. -/
theorem submit_tally_round_trip :
    (process_vote formJane fsEmpty).outcome =
      Outcome.success "Thank you Jane! You voted for Jane!" ∧
    (get_candidate_stats fs1).1 = [("Jane", 1), ("John", 0)] ∧
    (process_vote formSecond fs1).outcome = Outcome.error msgDup ∧
    (process_vote formSecond fs1).fs = fs1 ∧
    (get_candidate_stats (process_vote formSecond fs1).fs).1 = [("Jane", 1), ("John", 0)] := by
  decide

/-- C7: tally on a nonexistent store (and on an empty or header-only
file) returns the mapping with a zero entry for each known candidate,
and on any store state whatsoever the returned mapping's keys are
exactly the known candidate list, in order. -/
theorem tally_zero_initialized :
    (∀ rf wf, (get_candidate_stats ⟨none, rf, wf⟩).1 = [("Jane", 0), ("John", 0)]) ∧
    (∀ wf, (get_candidate_stats ⟨some [], false, wf⟩).1 = [("Jane", 0), ("John", 0)]) ∧
    (∀ wf, (get_candidate_stats ⟨some [header], false, wf⟩).1 = [("Jane", 0), ("John", 0)]) ∧
    (∀ fs, ((get_candidate_stats fs).1).map Prod.fst = candidates) := by
  refine ⟨fun rf wf => rfl, fun wf => rfl, fun wf => rfl, ?_⟩
  intro fs
  rcases fs with ⟨file, rf, wfb⟩
  rcases file with _ | lines
  · exact statsInit_keys
  · rcases rf with _ | _
    · rcases lines with _ | ⟨fieldnames, rest⟩
      · exact statsInit_keys
      · show ((tallyRows fieldnames (rest.filter (fun r => r ≠ [])) statsInit).1).map
            Prod.fst = candidates
        rw [tallyRows_keys, statsInit_keys]
    · exact statsInit_keys

/-- C4: for every list of data rows under the store's standard header,
tally counts, for each known candidate `c`, exactly the rows whose
`Voted` field equals `c`; rows naming no known candidate (malformed
rows included) contribute to no count, and the scan finishes without
any warning. -/
theorem tally_counts_exactly (rows : List (List String)) (wf : Bool) (c : String)
    (hc : c ∈ candidates) :
    lookup0 (get_candidate_stats ⟨some (header :: rows), false, wf⟩).1 c =
      (rows.filter (fun r => r ≠ [])).countP (fun r => decide (r.get? 3 = some c)) ∧
    (get_candidate_stats ⟨some (header :: rows), false, wf⟩).2 = false := by
  constructor
  · show lookup0 (tallyRows header (rows.filter (fun r => r ≠ [])) statsInit).1 c = _
    rw [tallyRows_header_count _ _ _ (hasKey_statsInit c hc), lookup0_statsInit]
    simp
  · exact tallyRows_header_snd _ _

/-- Witness for C4 at a concrete store: one well-formed row for John,
one row with an unknown candidate, one short row, one blank row; John's
count is 1 and no warning is raised. -/
theorem tally_counts_exactly_witness :
    lookup0 (get_candidate_stats ⟨some (header :: [["Amy", "B", "11111", "John"],
      ["Cy", "D", "22222", "Nobody"], ["x"], []]), false, false⟩).1 "John" =
      ([["Amy", "B", "11111", "John"], ["Cy", "D", "22222", "Nobody"], ["x"],
        ([] : List String)].filter (fun r => r ≠ [])).countP
          (fun r => decide (r.get? 3 = some "John")) ∧
    (get_candidate_stats ⟨some (header :: [["Amy", "B", "11111", "John"],
      ["Cy", "D", "22222", "Nobody"], ["x"], []]), false, false⟩).2 = false :=
  tally_counts_exactly [["Amy", "B", "11111", "John"], ["Cy", "D", "22222", "Nobody"],
    ["x"], []] false "John" (by decide)

/-- C1: the duplicate check compares only the `Voting ID` column of the
stored rows, and any submission whose (otherwise valid) form carries the
same voting id as some already-persisted row fails with the duplicate
error, whatever its names and candidate selection are, leaving the store
untouched. -/
theorem duplicate_vote_rejected :
    (∀ rows vid wf, (check_duplicate_vote ⟨some (header :: rows), false, wf⟩ vid).1 =
      (rows.filter (fun r => r ≠ [])).any (fun r => decide (r.get? 2 = some vid))) ∧
    (∀ f fs rows, fs.file = some (header :: rows) → fs.readFails = false → formOK f →
      (∃ r ∈ rows, r.get? 2 = some (get_voting_id f)) →
      process_vote f fs = ⟨Outcome.error msgDup, fs, false⟩) := by
  constructor
  · intro rows vid wf
    rw [check_duplicate_header_eq]
  · intro f fs rows hfile hrf hok hex
    rcases fs with ⟨file, rf, wfb⟩
    simp only at hfile hrf
    subst hfile
    subst hrf
    have hchk : check_duplicate_vote ⟨some (header :: rows), false, wfb⟩
        (get_voting_id f) = (true, false) := by
      rw [check_duplicate_header_eq]
      obtain ⟨r, hr, hr2⟩ := hex
      have hne : r ≠ [] := by
        intro h
        subst h
        simp [List.get?] at hr2
      have hany : (rows.filter (fun r => r ≠ [])).any
          (fun r => decide (r.get? 2 = some (get_voting_id f))) = true := by
        apply List.any_eq_true.mpr
        refine ⟨r, List.mem_filter.mpr ⟨hr, by simp [hne]⟩, ?_⟩
        simp only [List.get?_eq_getElem?] at hr2
        simp [hr2]
      rw [hany]
    have hpv := process_vote_dup f ⟨some (header :: rows), false, wfb⟩ hok (by rw [hchk])
    rw [hpv, hchk]

/-- Witness for C1: a store holding Jane Doe's vote under id 12345; a
submission by Bob Lee with the same id but the other candidate fails as
a duplicate and the store is unchanged. -/
theorem duplicate_vote_rejected_witness :
    process_vote formSecond ⟨some [header, ["Jane", "Doe", "12345", "Jane"]], false, false⟩ =
      ⟨Outcome.error msgDup, ⟨some [header, ["Jane", "Doe", "12345", "Jane"]], false, false⟩,
        false⟩ :=
  duplicate_vote_rejected.2 formSecond
    ⟨some [header, ["Jane", "Doe", "12345", "Jane"]], false, false⟩
    [["Jane", "Doe", "12345", "Jane"]] rfl rfl
    (by refine ⟨by decide, by decide, by decide, by decide, by decide⟩)
    ⟨["Jane", "Doe", "12345", "Jane"], by decide, by decide⟩

/-- C2: the error reported by `process_vote` is exactly the one produced
by the specification's six ordered, short-circuiting checks (first
failure wins), rendered as its user-facing message, where the duplicate
flag is the store scan's result; and an input whose voting id is present
but not 5 characters long always fails with the format error, with the
store untouched and never consulted (the result is the same for every
store state). -/
theorem validation_ordered :
    (∀ f fs, processErrMsg (process_vote f fs) =
      (validateSpec f (check_duplicate_vote fs (get_voting_id f)).1).map msgOfErr) ∧
    (∀ f fs fs2, f.input_first_name ≠ "" → f.input_last_name ≠ "" →
      get_voting_id f ≠ "" → (get_voting_id f).length ≠ 5 →
      (process_vote f fs).outcome = Outcome.error msgFmt ∧
        (process_vote f fs).fs = fs ∧
        (process_vote f fs).outcome = (process_vote f fs2).outcome) := by
  constructor
  · intro f fs
    by_cases h1 : f.input_first_name = ""
    · simp [process_vote, validateSpec, processErrMsg, msgOfErr, h1, msgFirst]
    by_cases h2 : f.input_last_name = ""
    · simp [process_vote, validateSpec, processErrMsg, msgOfErr, h1, h2, msgLast]
    by_cases h3 : get_voting_id f = ""
    · simp [process_vote, validateSpec, processErrMsg, msgOfErr, h1, h2, h3, msgVid]
    by_cases h4 : (get_voting_id f).length = 5
    · by_cases h5 : (f.firstChecked || f.secondChecked) = true
      · have h5n : ¬(f.firstChecked = false ∧ f.secondChecked = false) := by
          intro hx
          rw [hx.1, hx.2] at h5
          simp at h5
        by_cases h6 : (check_duplicate_vote fs (get_voting_id f)).1 = true
        · simp [process_vote, validateSpec, processErrMsg, msgOfErr, h1, h2, h3, h4, h5,
            h5n, h6]
        · simp [process_vote, validateSpec, processErrMsg, msgOfErr, h1, h2, h3, h4, h5,
            h5n, h6]
      · have h5f : f.firstChecked = false ∧ f.secondChecked = false := by
          rcases hA : f.firstChecked <;> rcases hB : f.secondChecked <;> simp_all
        simp [process_vote, validateSpec, processErrMsg, msgOfErr, h1, h2, h3, h4,
          h5f.1, h5f.2]
    · simp [process_vote, validateSpec, processErrMsg, msgOfErr, h1, h2, h3, h4]
  · intro f fs fs2 h1 h2 h3 h4
    refine ⟨?_, ?_, ?_⟩ <;> simp [process_vote, h1, h2, h3, h4]

/-- Witness for C2 at a concrete malformed input: names present, voting
id "123" (length 3), both stores arbitrary and different; the outcome is
the format error, the store is untouched, and the result does not depend
on the store. -/
theorem validation_ordered_witness :
    (process_vote ⟨"Ann", "Lee", "1", "2", "3", "", "", true, false⟩ fsEmpty).outcome =
      Outcome.error msgFmt ∧
    (process_vote ⟨"Ann", "Lee", "1", "2", "3", "", "", true, false⟩ fsEmpty).fs = fsEmpty ∧
    (process_vote ⟨"Ann", "Lee", "1", "2", "3", "", "", true, false⟩ fsEmpty).outcome =
      (process_vote ⟨"Ann", "Lee", "1", "2", "3", "", "", true, false⟩
        ⟨some [header, ["Ann", "Lee", "123", "Jane"]], false, false⟩).outcome :=
  validation_ordered.2 ⟨"Ann", "Lee", "1", "2", "3", "", "", true, false⟩ fsEmpty
    ⟨some [header, ["Ann", "Lee", "123", "Jane"]], false, false⟩
    (by decide) (by decide) (by decide) (by decide)

/-- C6 counterexample: with both candidate flags set simultaneously (and
every other field valid, empty store), the submission does not fail with
the selection error — it succeeds. -/
theorem both_selected_not_rejected :
    (process_vote formBoth fsEmpty).outcome =
      Outcome.success "Thank you Amy! You voted for Jane!" ∧
    (process_vote formBoth fsEmpty).outcome ≠ Outcome.error msgSel := by
  decide

/-- C6 as amended: for inputs passing the earlier checks, validation
fails with the selection error exactly when neither candidate flag is
set; in particular a submission with both flags set is not rejected by
the selection check. -/
theorem missing_selection_iff_neither (f : VoteForm) (fs : FileSys)
    (h1 : f.input_first_name ≠ "") (h2 : f.input_last_name ≠ "")
    (h3 : get_voting_id f ≠ "") (h4 : (get_voting_id f).length = 5) :
    (process_vote f fs).outcome = Outcome.error msgSel ↔
      (f.firstChecked = false ∧ f.secondChecked = false) := by
  by_cases hab : (f.firstChecked || f.secondChecked) = true
  · have hno : ¬(f.firstChecked = false ∧ f.secondChecked = false) := by
      intro hx
      rw [hx.1, hx.2] at hab
      simp at hab
    constructor
    · intro hout
      exfalso
      by_cases hd : (check_duplicate_vote fs (get_voting_id f)).1 = true
      · rw [process_vote_dup f fs ⟨h1, h2, h3, h4, hab⟩ hd] at hout
        exact absurd (Outcome.error.inj hout) (by decide)
      · simp only [Bool.not_eq_true] at hd
        rw [process_vote_ok f fs ⟨h1, h2, h3, h4, hab⟩ hd] at hout
        exact Outcome.noConfusion hout
    · intro hx
      exact absurd hx hno
  · have hff : f.firstChecked = false ∧ f.secondChecked = false := by
      rcases hA : f.firstChecked <;> rcases hB : f.secondChecked <;> simp_all
    constructor
    · intro _
      exact hff
    · intro _
      simp [process_vote, h1, h2, h3, h4, hff.1, hff.2]

/-- Witness for the amended C6: at a concrete both-selected form the
outcome is not the selection error, by the proved equivalence. -/
theorem missing_selection_iff_neither_witness :
    (process_vote formBoth fsEmpty).outcome = Outcome.error msgSel ↔
      (formBoth.firstChecked = false ∧ formBoth.secondChecked = false) :=
  missing_selection_iff_neither formBoth fsEmpty (by decide) (by decide) (by decide)
    (by decide)

/-- C10: when both candidate flags are set and every other check passes
(non-duplicate id, working store), the submission succeeds, the vote is
resolved to the first configured candidate, and the record is persisted
for that candidate. -/
theorem both_selected_resolves_to_first (f : VoteForm) (fs : FileSys)
    (h1 : f.input_first_name ≠ "") (h2 : f.input_last_name ≠ "")
    (h3 : get_voting_id f ≠ "") (h4 : (get_voting_id f).length = 5)
    (hA : f.firstChecked = true) (hB : f.secondChecked = true)
    (hd : (check_duplicate_vote fs (get_voting_id f)).1 = false)
    (hw : fs.writeFails = false) :
    (process_vote f fs).outcome = Outcome.success
      ("Thank you " ++ f.input_first_name ++ "! You voted for " ++ candidates[0]! ++ "!") ∧
    (process_vote f fs).fs.file = some ((fs.file.getD [header]) ++
      [[f.input_first_name, f.input_last_name, get_voting_id f, candidates[0]!]]) := by
  have hab : (f.firstChecked || f.secondChecked) = true := by rw [hA]; rfl
  have hcand : chosenCandidate f = candidates[0]! := by
    simp [chosenCandidate, hA]
  rw [process_vote_ok f fs ⟨h1, h2, h3, h4, hab⟩ hd]
  refine ⟨by rw [hcand], ?_⟩
  rcases fs with ⟨file, rf, wfb⟩
  simp only at hw
  subst hw
  rcases file with _ | lines <;> simp [save_vote, hcand]

/-- Witness for C10: both flags set on a fresh store; the vote succeeds
and is persisted for the first candidate. -/
theorem both_selected_resolves_to_first_witness :
    (process_vote formBoth ⟨some [header], false, false⟩).outcome = Outcome.success
      ("Thank you " ++ formBoth.input_first_name ++ "! You voted for " ++
        candidates[0]! ++ "!") ∧
    (process_vote formBoth ⟨some [header], false, false⟩).fs.file =
      some (((⟨some [header], false, false⟩ : FileSys).file.getD [header]) ++
        [[formBoth.input_first_name, formBoth.input_last_name, get_voting_id formBoth,
          candidates[0]!]]) :=
  both_selected_resolves_to_first formBoth ⟨some [header], false, false⟩ (by decide)
    (by decide) (by decide) (by decide) (by decide) (by decide) (by decide) (by decide)

/-- C3 counterexample: a duplicate check whose store read fails reports
non-duplicate and the submission proceeds (success outcome, record
appended) although its id 12345 is already persisted; and a submission
whose store append fails still reports success although nothing was
written. -/
theorem io_failure_claim_fails :
    (check_duplicate_vote fsReadErr "12345").1 = false ∧
    (process_vote formMia fsReadErr).outcome =
      Outcome.success "Thank you Mia! You voted for John!" ∧
    (process_vote formMia fsReadErr).fs.file =
      some [header, ["Jane", "Doe", "12345", "Jane"], ["Mia", "Poe", "12345", "John"]] ∧
    (process_vote formAl fsWriteErr).outcome =
      Outcome.success "Thank you Al! You voted for Jane!" ∧
    (process_vote formAl fsWriteErr).fs.file = some [header] := by
  decide

/-- C3 as amended: every underlying read or write failure during submit
or tally is caught and surfaced as a warning rather than propagated as a
crash, and the failed operation returns no partial state beyond what the
write path already flushed — at every interruption point of the save,
previously persisted lines are never altered or lost, and a failed save
of the very first vote leaves at most a freshly created empty or
header-only store; however, a submit whose store append fails still
reports success, and a duplicate check whose store read fails treats the
id as unseen, so the submission proceeds. -/
theorem io_failure_warned_and_bounded :
    (∀ fs vid lines, fs.file = some lines → fs.readFails = true →
      check_duplicate_vote fs vid = (false, true)) ∧
    (∀ fs lines, fs.file = some lines → fs.readFails = true →
      get_candidate_stats fs = (statsInit, true)) ∧
    (∀ file fault fn ln vid cd, fault ≠ SaveFault.ok →
      (save_vote_steps file fault fn ln vid cd).2 = true) ∧
    (∀ lines fault fn ln vid cd, fault ≠ SaveFault.ok →
      (save_vote_steps (some lines) fault fn ln vid cd).1 = some lines) ∧
    (∀ fault fn ln vid cd, fault ≠ SaveFault.ok →
      (save_vote_steps none fault fn ln vid cd).1 = none ∨
      (save_vote_steps none fault fn ln vid cd).1 = some [] ∨
      (save_vote_steps none fault fn ln vid cd).1 = some [header]) ∧
    (∀ f fs lines, formOK f → fs.file = some lines →
      (check_duplicate_vote fs (get_voting_id f)).1 = false → fs.writeFails = true →
      (process_vote f fs).outcome = Outcome.success
        ("Thank you " ++ f.input_first_name ++ "! You voted for " ++
          chosenCandidate f ++ "!") ∧
      (process_vote f fs).fs.file = some lines ∧ (process_vote f fs).warned = true) := by
  refine ⟨?_, ?_, ?_, ?_, ?_, ?_⟩
  · intro fs vid lines hfile hrf
    rcases fs with ⟨file, rf, wfb⟩
    simp only at hfile hrf
    subst hfile
    subst hrf
    rfl
  · intro fs lines hfile hrf
    rcases fs with ⟨file, rf, wfb⟩
    simp only at hfile hrf
    subst hfile
    subst hrf
    rfl
  · intro file fault fn ln vid cd h
    rcases file with _ | lines <;> rcases fault <;>
      first
        | exact absurd rfl h
        | rfl
  · intro lines fault fn ln vid cd h
    rcases fault <;>
      first
        | exact absurd rfl h
        | rfl
  · intro fault fn ln vid cd h
    rcases fault
    · exact absurd rfl h
    · exact Or.inl rfl
    · exact Or.inr (Or.inl rfl)
    · exact Or.inr (Or.inr rfl)
    · exact Or.inr (Or.inr rfl)
  · intro f fs lines hok hfile hd hw
    rw [process_vote_ok f fs hok hd]
    have hsv : save_vote fs f.input_first_name f.input_last_name (get_voting_id f)
        (chosenCandidate f) = (fs, true) := by
      simp [save_vote, hw]
    rw [hsv]
    exact ⟨rfl, hfile, by simp⟩

/-- Witness for the amended C3: a read-failing store yields the flagged
non-duplicate result and zero tally; an append-open fault on a
header-only store warns and leaves its line intact; a header-write fault
on an absent store leaves at most an empty or header-only file; and the
write-failing submit on the header-only store reports success with the
line intact and the warning flagged. -/
theorem io_failure_warned_and_bounded_witness :
    check_duplicate_vote fsReadErr "12345" = (false, true) ∧
    get_candidate_stats fsReadErr = (statsInit, true) ∧
    (save_vote_steps (some [header]) SaveFault.openAppend "Al" "Po" "99999" "Jane").2 =
      true ∧
    (save_vote_steps (some [header]) SaveFault.openAppend "Al" "Po" "99999" "Jane").1 =
      some [header] ∧
    ((save_vote_steps none SaveFault.writeHeader "Al" "Po" "99999" "Jane").1 = none ∨
      (save_vote_steps none SaveFault.writeHeader "Al" "Po" "99999" "Jane").1 = some [] ∨
      (save_vote_steps none SaveFault.writeHeader "Al" "Po" "99999" "Jane").1 =
        some [header]) ∧
    ((process_vote formAl fsWriteErr).outcome = Outcome.success
      ("Thank you " ++ formAl.input_first_name ++ "! You voted for " ++
        chosenCandidate formAl ++ "!") ∧
    (process_vote formAl fsWriteErr).fs.file = some [header] ∧
    (process_vote formAl fsWriteErr).warned = true) :=
  ⟨io_failure_warned_and_bounded.1 fsReadErr "12345" _ rfl rfl,
    io_failure_warned_and_bounded.2.1 fsReadErr _ rfl rfl,
    io_failure_warned_and_bounded.2.2.1 (some [header]) SaveFault.openAppend
      "Al" "Po" "99999" "Jane" (by decide),
    io_failure_warned_and_bounded.2.2.2.1 [header] SaveFault.openAppend
      "Al" "Po" "99999" "Jane" (by decide),
    io_failure_warned_and_bounded.2.2.2.2.1 SaveFault.writeHeader
      "Al" "Po" "99999" "Jane" (by decide),
    io_failure_warned_and_bounded.2.2.2.2.2 formAl fsWriteErr [header]
      ⟨by decide, by decide, by decide, by decide, by decide⟩ rfl (by decide) rfl⟩

/-- C8: with a working write path, saving a vote creates the store with
the single header line when it is absent and then holds exactly the
header plus the one record line; when the store exists, the new store is
exactly the old lines, unchanged and in order, plus the one appended
record line with the four fields in order; and every accepted
submission's resulting store is its prior lines plus that one line. -/
theorem save_vote_append_only :
    (∀ fs fn ln vid cd, fs.writeFails = false → fs.file = none →
      save_vote fs fn ln vid cd = ({ fs with file := some [header, [fn, ln, vid, cd]] },
        false)) ∧
    (∀ fs fn ln vid cd lines, fs.writeFails = false → fs.file = some lines →
      save_vote fs fn ln vid cd = ({ fs with file := some (lines ++ [[fn, ln, vid, cd]]) },
        false)) ∧
    (∀ f fs, fs.writeFails = false → formOK f →
      (check_duplicate_vote fs (get_voting_id f)).1 = false →
      (process_vote f fs).fs.file = some ((fs.file.getD [header]) ++
        [[f.input_first_name, f.input_last_name, get_voting_id f, chosenCandidate f]])) := by
  refine ⟨?_, ?_, ?_⟩
  · intro fs fn ln vid cd hw hfile
    simp [save_vote, hw, hfile]
  · intro fs fn ln vid cd lines hw hfile
    simp [save_vote, hw, hfile]
  · intro f fs hw hok hd
    rw [process_vote_ok f fs hok hd]
    rcases fs with ⟨file, rf, wfb⟩
    simp only at hw
    subst hw
    rcases file with _ | lines <;> simp [save_vote]

/-- Witness for C8: saving to an absent store creates header plus one
record; saving to a one-vote store appends exactly one record; a
concrete accepted submission appends its record to the header-only
store. -/
theorem save_vote_append_only_witness :
    save_vote fsEmpty "Jane" "Doe" "12345" "Jane" =
      ({ fsEmpty with file := some [header, ["Jane", "Doe", "12345", "Jane"]] }, false) ∧
    save_vote ⟨some [header, ["Jane", "Doe", "12345", "Jane"]], false, false⟩
        "Bob" "Lee" "54321" "John" =
      ({ (⟨some [header, ["Jane", "Doe", "12345", "Jane"]], false, false⟩ : FileSys) with
        file := some ([header, ["Jane", "Doe", "12345", "Jane"]] ++
          [["Bob", "Lee", "54321", "John"]]) }, false) ∧
    (process_vote formAl ⟨some [header], false, false⟩).fs.file =
      some (((⟨some [header], false, false⟩ : FileSys).file.getD [header]) ++
        [[formAl.input_first_name, formAl.input_last_name, get_voting_id formAl,
          chosenCandidate formAl]]) :=
  ⟨save_vote_append_only.1 fsEmpty "Jane" "Doe" "12345" "Jane" rfl rfl,
    save_vote_append_only.2.1 ⟨some [header, ["Jane", "Doe", "12345", "Jane"]], false,
      false⟩ "Bob" "Lee" "54321" "John" _ rfl rfl,
    save_vote_append_only.2.2 formAl ⟨some [header], false, false⟩ rfl
      ⟨by decide, by decide, by decide, by decide, by decide⟩ (by decide)⟩

/-- C9: when reading the store during the duplicate check raises, the
check reports the id as unseen (with a warning), so an otherwise valid
submission proceeds: it reports success and its record is appended to
the store, even though a row with the same voting id is already
persisted among the store's lines. -/
theorem read_error_treated_as_unseen (f : VoteForm) (fs : FileSys)
    (lines : List (List String)) (hfile : fs.file = some lines)
    (hrf : fs.readFails = true) (hw : fs.writeFails = false) (hok : formOK f)
    (hdup : ∃ r ∈ lines, r.get? 2 = some (get_voting_id f)) :
    check_duplicate_vote fs (get_voting_id f) = (false, true) ∧
    (process_vote f fs).outcome = Outcome.success
      ("Thank you " ++ f.input_first_name ++ "! You voted for " ++
        chosenCandidate f ++ "!") ∧
    (process_vote f fs).fs.file = some (lines ++
      [[f.input_first_name, f.input_last_name, get_voting_id f, chosenCandidate f]]) := by
  rcases fs with ⟨file, rf, wfb⟩
  simp only at hfile hrf hw
  subst hfile
  subst hrf
  subst hw
  have hchk : check_duplicate_vote ⟨some lines, true, false⟩ (get_voting_id f) =
      (false, true) := rfl
  refine ⟨hchk, ?_, ?_⟩ <;>
    rw [process_vote_ok f _ hok (by rw [hchk])] <;> simp [save_vote]

/-- Witness for C9: Jane's vote under id 12345 is persisted, the read
path fails, and Mia's submission with the same id 12345 is reported
unseen, succeeds, and is appended. -/
theorem read_error_treated_as_unseen_witness :
    check_duplicate_vote fsReadErr (get_voting_id formMia) = (false, true) ∧
    (process_vote formMia fsReadErr).outcome = Outcome.success
      ("Thank you " ++ formMia.input_first_name ++ "! You voted for " ++
        chosenCandidate formMia ++ "!") ∧
    (process_vote formMia fsReadErr).fs.file =
      some ([header, ["Jane", "Doe", "12345", "Jane"]] ++
        [[formMia.input_first_name, formMia.input_last_name, get_voting_id formMia,
          chosenCandidate formMia]]) :=
  read_error_treated_as_unseen formMia fsReadErr
    [header, ["Jane", "Doe", "12345", "Jane"]] rfl rfl rfl
    ⟨by decide, by decide, by decide, by decide, by decide⟩
    ⟨["Jane", "Doe", "12345", "Jane"], by decide, by decide⟩
